import Mathlib

/-!
Shallow embedding of the core of `zarr_etl_tools`:
`zarr_etl_tools/dataset_manager.py` (DatasetManager construction, metadata
population, name resolution, `run_etl` orchestration) and
`zarr_etl_tools/utils/store.py` (the Local / S3 / IPLD store interfaces).

Python `None`-or-string values are modelled as `Option String`;
Python truthiness of such a value (`if not bucket`, `bool(latest_hash())`,
`if set_root and self.dm.latest_hash()`) is `py_truthy`.
Python exceptions raised by constructors are modelled with `Except String`.
Object allocation (a "new" filesystem mapper) is modelled by threading a
fresh natural-number counter: two mappers with different ids are distinct
objects.
-/

/-- Truthiness of a Python value that is either `None` or a string:
`None` and the empty string are falsy, every other string is truthy. -/
def py_truthy : Option String → Bool
  | none => false
  | some s => !(s == "")

/-! ### store.py: the three store interfaces -/

/-- The three concrete `StoreInterface` classes of `utils/store.py`. -/
inductive StoreType where
  | Local
  | IPLD
  | S3
deriving DecidableEq

/-- `S3.__init__` (store.py): `if not bucket: raise ValueError("Must provide
bucket name if parsing to S3")`, else the bucket is stored on the object. -/
def S3.init_bucket : Option String → Except String String
  | none => Except.error "Must provide bucket name if parsing to S3"
  | some b =>
      if b == "" then Except.error "Must provide bucket name if parsing to S3"
      else Except.ok b

/-- `S3.url` (store.py): `f"s3://{self.bucket}/datasets/{self.dm.json_key()}.zarr"`. -/
def S3.url (bucket : String) (json_key : String) : String :=
  "s3://" ++ bucket ++ "/datasets/" ++ json_key ++ ".zarr"

/-- The mapper-cache state shared by the `S3` and `Local` interfaces:
`cached = none` models `hasattr(self, "_mapper")` being false; `fresh` is
the id the next newly created mapper object would get. -/
structure CacheState where
  cached : Option Nat
  fresh : Nat
deriving DecidableEq

/-- `S3.mapper` (store.py): `if refresh or not hasattr(self, "_mapper"):
self._mapper = s3fs.S3Map(...)` then `return self._mapper`.  Returns the
mapper handed back and the new cache state. -/
def S3.mapper_model (refresh : Bool) (st : CacheState) : Nat × CacheState :=
  match st.cached, refresh with
  | some m, false => (m, st)
  | _, _ => (st.fresh, { cached := some st.fresh, fresh := st.fresh + 1 })

/-- `Local.mapper` (store.py): `if refresh or not hasattr(self, "_mapper"):
self._mapper = self.fs().get_mapper(self.path)` then `return self._mapper`. -/
def Local.mapper_model (refresh : Bool) (st : CacheState) : Nat × CacheState :=
  match st.cached, refresh with
  | some m, false => (m, st)
  | _, _ => (st.fresh, { cached := some st.fresh, fresh := st.fresh + 1 })

/-- The observable state of an `ipldstore` mapper as produced by
`IPLD.mapper`: its object identity, the chunker it was created with, and
the root it was set to (if any). -/
structure IPLDMapper where
  id : Nat
  chunker : Option String
  root : Option String
deriving DecidableEq

/-- `IPLD.mapper` (store.py).  A new mapper object is created on every call
(there is no `_mapper` attribute and no cache): `get_ipfs_mapper(chunker=...)`
when `self.dm.requested_ipfs_chunker` is truthy, else `get_ipfs_mapper()`.
Then `if set_root and self.dm.latest_hash(): mapper.set_root(self.dm.latest_hash())`;
by short-circuiting, `latest_hash` is consulted exactly when `set_root` is true.
Returns (the mapper, whether the latest-hash resolution was consulted, the
next fresh object id). -/
def IPLD.mapper_model (set_root : Bool) (latest_hash : Option String)
    (requested_ipfs_chunker : Option String) (fresh : Nat) :
    IPLDMapper × Bool × Nat :=
  ({ id := fresh,
     chunker := if py_truthy requested_ipfs_chunker then requested_ipfs_chunker else none,
     root := if set_root && py_truthy latest_hash then latest_hash else none },
   set_root, fresh + 1)

/-- `IPLD.has_existing` (store.py): `return bool(self.dm.latest_hash())`. -/
def IPLD.has_existing (latest_hash : Option String) : Bool :=
  py_truthy latest_hash

/-! ### dataset_manager.py: DatasetManager construction -/

/-- The store-dispatch block of `DatasetManager.__init__` (dataset_manager.py):
`None` and `"local"` give `Local(self)`, `"ipld"` gives `IPLD(self)`,
`"s3"` gives `S3(self, s3_bucket_name)` (whose constructor may raise), and
any other string raises `ValueError("Store must be one of 'local', 'ipld',
or 's3'")`.  No branch performs network or filesystem I/O. -/
def init_store : Option String → Option String → Except String StoreType
  | none, _ => Except.ok StoreType.Local
  | some s, bucket =>
      if s == "local" then Except.ok StoreType.Local
      else if s == "ipld" then Except.ok StoreType.IPLD
      else if s == "s3" then
        match S3.init_bucket bucket with
        | Except.ok _ => Except.ok StoreType.S3
        | Except.error e => Except.error e
      else Except.error "Store must be one of \x27local\x27, \x27ipld\x27, or \x27s3\x27"

/-- The part of a constructed `DatasetManager` the claims are about: the
bound store and the overwrite flag. -/
structure ManagerInit where
  store : StoreType
  overwrite_allowed : Bool
deriving DecidableEq

/-- `DatasetManager.__init__` (dataset_manager.py): dispatch on `store`,
then `self.overwrite_allowed = allow_overwrite or isinstance(self.store, IPLD)`. -/
def DatasetManager.init (store : Option String) (s3_bucket_name : Option String)
    (allow_overwrite : Bool) : Except String ManagerInit :=
  match init_store store s3_bucket_name with
  | Except.error e => Except.error e
  | Except.ok st =>
      Except.ok { store := st, overwrite_allowed := allow_overwrite || (st == StoreType.IPLD) }

/-! ### dataset_manager.py: populate_metadata -/

/-- A Python dict of metadata entries. -/
abbrev Dict := List (String × String)

/-- The possible values of the `metadata` attribute of a manager:
not yet set (`hasattr(self, "metadata")` is false), set to Python `None`,
or holding a dict. -/
inductive PyMeta where
  | absent
  | pyNone
  | dict (d : Dict)
deriving DecidableEq

/-- The value of the Python expression `d.update(e)`: `dict.update` mutates
`d` in place and returns `None`, so the expression's value is `None`. -/
def dict_update_call_value (_d _e : Dict) : PyMeta :=
  PyMeta.pyNone

/-- `DatasetManager.populate_metadata` (dataset_manager.py):
`if hasattr(self, "metadata") and self.metadata is not None:
self.metadata = self.metadata.update(self.static_metadata)` else
`self.metadata = self.static_metadata`.  Maps the current value of the
`metadata` attribute to its value after the call. -/
def populate_metadata (static_metadata : Dict) : PyMeta → PyMeta
  | PyMeta.dict d => dict_update_call_value d static_metadata
  | _ => PyMeta.dict static_metadata

/-! ### dataset_manager.py: subclass-tree name resolution -/

/-- Whether a character list begins with a pattern. -/
def chars_start_with : List Char → List Char → Bool
  | _, [] => true
  | [], _ :: _ => false
  | c :: cs, p :: ps => c == p && chars_start_with cs ps

/-- Whether a pattern occurs as a contiguous substring of a character list. -/
def chars_contain (pat : List Char) : List Char → Bool
  | [] => chars_start_with [] pat
  | c :: cs => chars_start_with (c :: cs) pat || chars_contain pat cs

/-- The Python expression `pat in s` on strings: substring containment. -/
def str_contains (s pat : String) : Bool :=
  chars_contain pat.data s.data

/-- A node of the `DatasetManager` subclass tree: every concrete source
class has a `name()`, a `json_key()` and direct subclasses. -/
inductive SourceClass where
  | mk (name : String) (json_key : String) (subclasses : List SourceClass)

/-- The `name()` classmethod of a source class. -/
def SourceClass.name : SourceClass → String
  | SourceClass.mk n _ _ => n

/-- The `json_key()` classmethod of a source class. -/
def SourceClass.json_key : SourceClass → String
  | SourceClass.mk _ k _ => k

mutual

/-- `DatasetManager.get_subclasses` (dataset_manager.py): for each direct
subclass, yield that subclass's own subclass enumeration and then the
subclass itself. -/
def get_subclasses : SourceClass → List SourceClass
  | SourceClass.mk _ _ subs => get_subclasses_list subs

/-- The enumeration of the generator loop `for subclass in cls.__subclasses__():
yield from subclass.get_subclasses(); yield subclass`. -/
def get_subclasses_list : List SourceClass → List SourceClass
  | [] => []
  | c :: cs => (get_subclasses c ++ [c]) ++ get_subclasses_list cs

end

/-- The body of the loop in `DatasetManager.get_dataset_manager_from_name`:
when `"gfs"` occurs in the requested name, compare against each candidate's
`json_key()`, otherwise against its `name()`; return the first match, and
`None` (after printing a diagnostic) when the list is exhausted. -/
def scan_for_name (nm : String) : List SourceClass → Option SourceClass
  | [] => none
  | s :: rest =>
      if str_contains nm "gfs" then
        if s.json_key == nm then some s else scan_for_name nm rest
      else
        if s.name == nm then some s else scan_for_name nm rest

/-- `DatasetManager.get_dataset_manager_from_name` (dataset_manager.py):
scan the transitive subclass tree of the root class once, returning the
first matching class or `None`. -/
def get_dataset_manager_from_name (root : SourceClass) (nm : String) : Option SourceClass :=
  scan_for_name nm (get_subclasses root)

/-! ### dataset_manager.py: run_etl -/

/-- The flags of `run_etl` that steer which steps run. -/
structure EtlFlags where
  only_parse : Bool
  only_update_input : Bool
  only_prepare_input : Bool
  only_metadata : Bool
deriving DecidableEq

/-- The manager calls `run_etl` can make, in order of appearance. -/
inductive EtlStep where
  | update_local_input
  | only_update_metadata
  | prepare_input_files
  | create_zarr_json
  | parse
deriving DecidableEq

/-- The part of `run_etl` after the update phase: `if only_metadata: ...
manager.only_update_metadata() ...`, then `if only_prepare_input:
manager.prepare_input_files(); manager.create_zarr_json()`, then
`if trigger_parse: manager.parse()`. -/
def run_etl_tail (f : EtlFlags) (trigger_parse : Bool) : List EtlStep :=
  (if f.only_metadata then [EtlStep.only_update_metadata] else []) ++
  (if f.only_prepare_input then [EtlStep.prepare_input_files, EtlStep.create_zarr_json] else []) ++
  (if trigger_parse then [EtlStep.parse] else [])

/-- `DatasetManager.run_etl` (dataset_manager.py), as the sequence of manager
steps it performs.  `trigger_parse` starts as `only_parse`; the update of
local input is skipped when `only_parse` or (elif) `only_metadata` is set;
otherwise `update_local_input` runs, its boolean return (`update_found_new`)
becomes the trigger, and if `only_update_input` is set the run returns
there.  The remaining steps are `run_etl_tail`. -/
def run_etl_steps (f : EtlFlags) (update_found_new : Bool) : List EtlStep :=
  if f.only_parse then
    run_etl_tail f f.only_parse
  else if f.only_metadata then
    run_etl_tail f f.only_parse
  else
    EtlStep.update_local_input ::
      (if f.only_update_input then [] else run_etl_tail f update_found_new)

/-! ## Helper lemmas -/

theorem scan_for_name_eq_find (nm : String) (l : List SourceClass) :
    scan_for_name nm l =
      l.find? (fun s => if str_contains nm "gfs" then s.json_key == nm else s.name == nm) := by
  induction l with
  | nil => rfl
  | cons s rest ih =>
    by_cases hg : str_contains nm "gfs" = true
    · by_cases he : (s.json_key == nm) = true
      · simp [scan_for_name, List.find?, hg, he]
      · simp only [Bool.not_eq_true] at he
        simp [scan_for_name, List.find?, hg, he, ih]
    · simp only [Bool.not_eq_true] at hg
      by_cases he : (s.name == nm) = true
      · simp [scan_for_name, List.find?, hg, he]
      · simp only [Bool.not_eq_true] at he
        simp [scan_for_name, List.find?, hg, he, ih]

/-! ## Claim theorems -/

/-- C4: For every subclass tree and every name string,
`get_dataset_manager_from_name` scans the transitive subclass tree and
returns the first subclass whose `json_key()` equals the name when the name
contains the substring "gfs", otherwise the first subclass whose `name()`
equals it; when no subclass matches, the result is `none` (a printed
diagnostic, no exception). -/
theorem get_dataset_manager_from_name_spec (root : SourceClass) (nm : String) :
    get_dataset_manager_from_name root nm =
      (get_subclasses root).find?
        (fun s => if str_contains nm "gfs" then s.json_key == nm else s.name == nm) :=
  scan_for_name_eq_find nm (get_subclasses root)

/-- C1 (code bug): `populate_metadata` is not idempotent.  On a manager with
`static_metadata = {"title": "Example"}` and no prior `metadata` attribute,
one call sets `metadata` to the static dict, but a second call executes
`self.metadata = self.metadata.update(self.static_metadata)`, and since
Python's `dict.update` returns `None`, `metadata` becomes `None`. -/
theorem populate_metadata_not_idempotent :
    populate_metadata [("title", "Example")]
        (populate_metadata [("title", "Example")] PyMeta.absent) ≠
      populate_metadata [("title", "Example")] PyMeta.absent ∧
    populate_metadata [("title", "Example")]
        (populate_metadata [("title", "Example")] PyMeta.absent) = PyMeta.pyNone := by
  constructor
  · simp [populate_metadata, dict_update_call_value]
  · rfl

/-- C10: Constructing a `DatasetManager` with `store=None` does not fail: it
binds the manager to the `Local` backend, exactly as if `store="local"` had
been passed, for every bucket argument and overwrite flag. -/
theorem store_none_defaults_to_local (bucket : Option String) (ao : Bool) :
    DatasetManager.init none bucket ao = DatasetManager.init (some "local") bucket ao ∧
    (DatasetManager.init none bucket ao).map ManagerInit.store =
      Except.ok StoreType.Local := by
  constructor
  · rfl
  · simp [DatasetManager.init, init_store, Except.map]

/-- C2: A manager constructed with `store="ipld"` has
`overwrite_allowed = True` regardless of the `allow_overwrite` argument,
while a manager bound to any non-IPLD backend has `overwrite_allowed`
equal to the `allow_overwrite` argument. -/
theorem overwrite_allowed_spec (bucket bucket2 : Option String) (ao ao2 : Bool)
    (s : Option String) (r r2 : ManagerInit)
    (hi : DatasetManager.init (some "ipld") bucket ao = Except.ok r)
    (ho : DatasetManager.init s bucket2 ao2 = Except.ok r2)
    (hno : r2.store ≠ StoreType.IPLD) :
    r.overwrite_allowed = true ∧ r2.overwrite_allowed = ao2 := by
  constructor
  · have h1 : DatasetManager.init (some "ipld") bucket ao =
        Except.ok { store := StoreType.IPLD, overwrite_allowed := true } := by
      simp [DatasetManager.init, init_store]
    rw [h1] at hi
    injection hi with hr
    rw [← hr]
  · unfold DatasetManager.init at ho
    cases hst : init_store s bucket2 with
    | error e => rw [hst] at ho; exact absurd ho (by simp)
    | ok st =>
      rw [hst] at ho
      injection ho with hr
      cases st with
      | IPLD =>
        exfalso
        apply hno
        rw [← hr]
      | Local =>
        rw [← hr]
        simp
      | S3 =>
        rw [← hr]
        simp

/-- C2 witness: concrete managers on the IPLD and Local backends. -/
theorem overwrite_allowed_spec_witness :
    ({ store := StoreType.IPLD, overwrite_allowed := true } : ManagerInit).overwrite_allowed
        = true ∧
    ({ store := StoreType.Local, overwrite_allowed := false } : ManagerInit).overwrite_allowed
        = false :=
  overwrite_allowed_spec none none false false (some "local")
    { store := StoreType.IPLD, overwrite_allowed := true }
    { store := StoreType.Local, overwrite_allowed := false }
    (by rfl) (by rfl) (by decide)

/-- C3 counterexample: at the concrete input `store="s3"` with
`s3_bucket_name=None`, construction does not yield a bound S3 store as the
claim states; it raises the bucket-name `ValueError` instead. -/
theorem store_s3_without_bucket_raises :
    DatasetManager.init (some "s3") none false =
        Except.error "Must provide bucket name if parsing to S3" ∧
    (DatasetManager.init (some "s3") none false).isOk = false := by
  constructor
  · rfl
  · rfl

/-- C3 amended: `store="local"` and `store="ipld"` always bind a store of
type Local resp. IPLD; `store="s3"` binds a store of type S3 when a truthy
(non-`None`, non-empty) bucket name is supplied, and raises
`ValueError("Must provide bucket name if parsing to S3")` when the bucket
is `None` or empty; every other string raises a `ValueError` naming the
accepted set.  All of these are decided before any network or filesystem
call. -/
theorem init_store_dispatch_spec (b bt bf : Option String) (s : String) (ao : Bool)
    (hbt : py_truthy bt = true) (hbf : py_truthy bf = false)
    (hs1 : s ≠ "local") (hs2 : s ≠ "ipld") (hs3 : s ≠ "s3") :
    (DatasetManager.init (some "local") b ao).map ManagerInit.store =
        Except.ok StoreType.Local ∧
    (DatasetManager.init (some "ipld") b ao).map ManagerInit.store =
        Except.ok StoreType.IPLD ∧
    (DatasetManager.init (some "s3") bt ao).map ManagerInit.store =
        Except.ok StoreType.S3 ∧
    DatasetManager.init (some "s3") bf ao =
        Except.error "Must provide bucket name if parsing to S3" ∧
    DatasetManager.init (some s) b ao =
        Except.error "Store must be one of \x27local\x27, \x27ipld\x27, or \x27s3\x27" := by
  refine ⟨by simp [DatasetManager.init, init_store, Except.map], ?_, ?_, ?_, ?_⟩
  · simp [DatasetManager.init, init_store, Except.map]
  · cases bt with
    | none => simp [py_truthy] at hbt
    | some x =>
      simp only [py_truthy, Bool.not_eq_true'] at hbt
      simp [DatasetManager.init, init_store, S3.init_bucket, hbt, Except.map]
  · cases bf with
    | none => simp [DatasetManager.init, init_store, S3.init_bucket]
    | some x =>
      have hx : x = "" := by simpa [py_truthy] using hbf
      subst hx
      rfl
  · simp [DatasetManager.init, init_store, hs1, hs2, hs3]

/-- C3 witness: the dispatch at concrete arguments, with bucket `"bkt"` for
the successful S3 case, bucket `None` for the failing one, and store
string `"gcs"` for the invalid-store case. -/
theorem init_store_dispatch_spec_witness :
    (DatasetManager.init (some "local") none false).map ManagerInit.store =
        Except.ok StoreType.Local ∧
    (DatasetManager.init (some "ipld") none false).map ManagerInit.store =
        Except.ok StoreType.IPLD ∧
    (DatasetManager.init (some "s3") (some "bkt") false).map ManagerInit.store =
        Except.ok StoreType.S3 ∧
    DatasetManager.init (some "s3") none false =
        Except.error "Must provide bucket name if parsing to S3" ∧
    DatasetManager.init (some "gcs") none false =
        Except.error "Store must be one of \x27local\x27, \x27ipld\x27, or \x27s3\x27" :=
  init_store_dispatch_spec none (some "bkt") none "gcs" false
    (by rfl) (by rfl) (by decide) (by decide) (by decide)

/-- C5 counterexample: with `only_metadata=True` passed alongside
`only_parse=True`, the run does not stop after the metadata refresh — the
parse step still executes, contradicting the claim that no parse is
performed regardless of other flags. -/
theorem only_metadata_with_only_parse_still_parses :
    run_etl_steps
        { only_parse := true, only_update_input := false,
          only_prepare_input := false, only_metadata := true } false =
      [EtlStep.only_update_metadata, EtlStep.parse] ∧
    EtlStep.parse ∈
      run_etl_steps
        { only_parse := true, only_update_input := false,
          only_prepare_input := false, only_metadata := true } false := by
  constructor
  · rfl
  · decide

/-- C5 amended: with `only_metadata=True` and neither `only_parse` nor
`only_prepare_input` set, `run_etl` performs exactly the metadata-only
refresh: no update of local input, no prepare, no parse (for either value
of `only_update_input` and of update's would-be return).  When `only_parse`
or `only_prepare_input` is also set, those steps still run. -/
theorem only_metadata_alone_runs_metadata_only (f : EtlFlags) (u : Bool)
    (hm : f.only_metadata = true) (hp : f.only_parse = false)
    (hpi : f.only_prepare_input = false) :
    run_etl_steps f u = [EtlStep.only_update_metadata] := by
  simp [run_etl_steps, run_etl_tail, hm, hp, hpi]

/-- C5 witness: the metadata-only run at a concrete flag set (with
`only_update_input=True` to show it is ignored on this path). -/
theorem only_metadata_alone_runs_metadata_only_witness :
    run_etl_steps
        { only_parse := false, only_update_input := true,
          only_prepare_input := false, only_metadata := true } true =
      [EtlStep.only_update_metadata] :=
  only_metadata_alone_runs_metadata_only
    { only_parse := false, only_update_input := true,
      only_prepare_input := false, only_metadata := true } true rfl rfl rfl

/-- C6 counterexample: with `only_update_input=True` passed alongside
`only_parse=True`, `update_local_input` is never called (the `only_parse`
branch wins) and the parse step runs — contradicting the claim that every
`only_update_input=True` invocation calls update and then returns. -/
theorem only_update_input_with_only_parse_skips_update :
    run_etl_steps
        { only_parse := true, only_update_input := true,
          only_prepare_input := false, only_metadata := false } false =
      [EtlStep.parse] ∧
    EtlStep.update_local_input ∉
      run_etl_steps
        { only_parse := true, only_update_input := true,
          only_prepare_input := false, only_metadata := false } false := by
  constructor
  · rfl
  · decide

/-- C6 amended: with `only_update_input=True` and neither `only_parse` nor
`only_metadata` set, `run_etl` calls `update_local_input` and returns
without invoking parse, prepare, or any metadata step, for both possible
return values of `update_local_input` (and for either value of
`only_prepare_input`). -/
theorem only_update_input_stops_after_update (f : EtlFlags) (u : Bool)
    (hu : f.only_update_input = true) (hp : f.only_parse = false)
    (hm : f.only_metadata = false) :
    run_etl_steps f u = [EtlStep.update_local_input] := by
  simp [run_etl_steps, hu, hp, hm]

/-- C6 witness: the update-only run at a concrete flag set (with
`only_prepare_input=True` to show it is not reached). -/
theorem only_update_input_stops_after_update_witness :
    run_etl_steps
        { only_parse := false, only_update_input := true,
          only_prepare_input := true, only_metadata := false } true =
      [EtlStep.update_local_input] :=
  only_update_input_stops_after_update
    { only_parse := false, only_update_input := true,
      only_prepare_input := true, only_metadata := false } true rfl rfl rfl

/-- C7 counterexample: the IPLD backend does not cache its mapper — two
successive calls (the second starting from the fresh-id counter the first
left behind) return two distinct mapper objects, so the second call does
not return an already-cached view. -/
theorem ipld_mapper_not_cached :
    (IPLD.mapper_model true none none 0).1 ≠
      (IPLD.mapper_model true none none
        ((IPLD.mapper_model true none none 0).2.2)).1 := by
  decide

/-- C7 amended: the Local and S3 backends lazily create the mapper on first
request and cache it — a second call without `refresh` returns exactly the
cached view with the state unchanged, and `refresh=True` fully replaces the
cached handle with a new one.  The IPLD backend is different: its mapper is
created anew on every call (its keyword is `set_root`, not `refresh`), so
nothing is cached there. -/
theorem mapper_cache_spec (m fr f : Nat) (sr : Bool) (lh ch : Option String)
    (hfresh : m < fr) :
    S3.mapper_model false { cached := none, fresh := f } =
        (f, { cached := some f, fresh := f + 1 }) ∧
    S3.mapper_model false { cached := some m, fresh := fr } =
        (m, { cached := some m, fresh := fr }) ∧
    ((S3.mapper_model true { cached := some m, fresh := fr }).1 ≠ m ∧
      (S3.mapper_model true { cached := some m, fresh := fr }).2 =
        { cached := some fr, fresh := fr + 1 }) ∧
    Local.mapper_model false { cached := none, fresh := f } =
        (f, { cached := some f, fresh := f + 1 }) ∧
    Local.mapper_model false { cached := some m, fresh := fr } =
        (m, { cached := some m, fresh := fr }) ∧
    ((Local.mapper_model true { cached := some m, fresh := fr }).1 ≠ m ∧
      (Local.mapper_model true { cached := some m, fresh := fr }).2 =
        { cached := some fr, fresh := fr + 1 }) ∧
    ((IPLD.mapper_model sr lh ch f).1.id = f ∧
      (IPLD.mapper_model sr lh ch f).2.2 = f + 1) := by
  refine ⟨rfl, rfl, ⟨?_, rfl⟩, rfl, rfl, ⟨?_, rfl⟩, rfl, rfl⟩
  · show fr ≠ m
    omega
  · show fr ≠ m
    omega

/-- C7 witness: the cache behavior at a concrete state (cached mapper id 0,
next fresh id 1) and a concrete IPLD call. -/
theorem mapper_cache_spec_witness :
    S3.mapper_model false { cached := none, fresh := 5 } =
        (5, { cached := some 5, fresh := 6 }) ∧
    S3.mapper_model false { cached := some 0, fresh := 1 } =
        (0, { cached := some 0, fresh := 1 }) ∧
    ((S3.mapper_model true { cached := some 0, fresh := 1 }).1 ≠ 0 ∧
      (S3.mapper_model true { cached := some 0, fresh := 1 }).2 =
        { cached := some 1, fresh := 2 }) ∧
    Local.mapper_model false { cached := none, fresh := 5 } =
        (5, { cached := some 5, fresh := 6 }) ∧
    Local.mapper_model false { cached := some 0, fresh := 1 } =
        (0, { cached := some 0, fresh := 1 }) ∧
    ((Local.mapper_model true { cached := some 0, fresh := 1 }).1 ≠ 0 ∧
      (Local.mapper_model true { cached := some 0, fresh := 1 }).2 =
        { cached := some 1, fresh := 2 }) ∧
    ((IPLD.mapper_model true (some "QmHash") none 5).1.id = 5 ∧
      (IPLD.mapper_model true (some "QmHash") none 5).2.2 = 6) :=
  mapper_cache_spec 0 1 5 true (some "QmHash") none (by decide)

/-- C8: For the IPLD backend, `has_existing` is `False` exactly when
`latest_hash()` resolves to nothing truthy; `mapper(set_root=False)` never
consults the latest-hash resolution step (by short-circuiting of
`set_root and self.dm.latest_hash()`); and `mapper(set_root=True)` when a
latest hash exists returns a mapper rooted at that hash. -/
theorem ipld_root_and_existing_spec (lh lh2 ch : Option String) (h : String)
    (f f2 : Nat) (hh : lh = some h) (hne : h ≠ "") :
    (IPLD.has_existing lh2 = false ↔ py_truthy lh2 = false) ∧
    (IPLD.mapper_model false lh2 ch f2).2.1 = false ∧
    (IPLD.mapper_model true lh ch f).1.root = some h := by
  refine ⟨Iff.rfl, rfl, ?_⟩
  subst hh
  simp [IPLD.mapper_model, py_truthy, hne]

/-- C8 witness: a resolvable latest hash `"QmLatest"` roots the mapper at
that hash, while `has_existing` and the consultation flag are checked
against an unresolvable (`None`) hash. -/
theorem ipld_root_and_existing_spec_witness :
    (IPLD.has_existing none = false ↔ py_truthy none = false) ∧
    (IPLD.mapper_model false none none 0).2.1 = false ∧
    (IPLD.mapper_model true (some "QmLatest") none 0).1.root = some "QmLatest" :=
  ipld_root_and_existing_spec (some "QmLatest") none none "QmLatest" 0 0 rfl
    (by decide)

/-- C9: Constructing the S3 store with a `None` or empty bucket name raises
the configuration `ValueError` (before any I/O — the constructor only
stores the bucket name); with a non-empty bucket name construction
succeeds, and `url` is `s3://<bucket>/datasets/<json_key>.zarr` for the
bound manager's `json_key`. -/
theorem s3_bucket_and_url_spec (b jk : String) (hb : b ≠ "") :
    S3.init_bucket none = Except.error "Must provide bucket name if parsing to S3" ∧
    S3.init_bucket (some "") = Except.error "Must provide bucket name if parsing to S3" ∧
    S3.init_bucket (some b) = Except.ok b ∧
    S3.url b jk = "s3://" ++ b ++ "/datasets/" ++ jk ++ ".zarr" := by
  refine ⟨rfl, rfl, ?_, rfl⟩
  simp [S3.init_bucket, hb]

/-- C9 witness: bucket `"climate-zarrs"` and json key `"chirps_final_p05"`. -/
theorem s3_bucket_and_url_spec_witness :
    S3.init_bucket none = Except.error "Must provide bucket name if parsing to S3" ∧
    S3.init_bucket (some "") = Except.error "Must provide bucket name if parsing to S3" ∧
    S3.init_bucket (some "climate-zarrs") = Except.ok "climate-zarrs" ∧
    S3.url "climate-zarrs" "chirps_final_p05" =
      "s3://" ++ "climate-zarrs" ++ "/datasets/" ++ "chirps_final_p05" ++ ".zarr" :=
  s3_bucket_and_url_spec "climate-zarrs" "chirps_final_p05" (by decide)
